import Mathlib

/-!
# Verification of the forum backend's service layer

A shallow embedding of the query-building, permission-check and cascading-
deletion logic of the forum backend (services and route handlers), together
with theorems settling the specification's claims about it.

The relational store is modelled as lists of rows; `read_query` becomes
list filtering with SQL `NULL`-comparison semantics, `update_query` becomes
list surgery returning the affected-row count, and raised exceptions become
`Except` errors.  Python truthiness of optional parameters (`if x:`) is
modelled explicitly: an absent value or a zero / empty-string value is
falsy.
-/

namespace Forum

/-! ## Data model (mirrors the tables consumed by the services) -/

/-- A row of the `users` table (the columns the embedded code reads). -/
structure UserRow where
  user_id : Nat
  username : String
  is_admin : Bool
  deriving Repr, DecidableEq

/-- A row of the `categories` table. -/
structure CategoryRow where
  category_id : Nat
  name : String
  is_locked : Bool
  is_private : Bool
  deriving Repr, DecidableEq

/-- A row of the `topics` table. -/
structure TopicRow where
  topic_id : Nat
  title : String
  user_id : Nat
  is_locked : Bool
  best_reply_id : Option Nat
  category_id : Nat
  deriving Repr, DecidableEq

/-- A row of the `replies` table (`created` is a timestamp). -/
structure ReplyRow where
  reply_id : Nat
  text : String
  user_id : Nat
  topic_id : Nat
  created : Nat
  edited : Bool
  deriving Repr, DecidableEq

/-- A row of the `users_categories_permissions` table. -/
structure PermRow where
  category_id : Nat
  user_id : Nat
  write_access : Nat
  deriving Repr, DecidableEq

/-- The relational store the services query. -/
structure DB where
  users : List UserRow
  categories : List CategoryRow
  topics : List TopicRow
  replies : List ReplyRow
  perms : List PermRow
  deriving Repr, DecidableEq

/-- The service layer's error taxonomy, plus `typeError` for a raw Python
`TypeError` escaping a handler (raising a non-exception value). -/
inductive AppError where
  | notFound (msg : String)
  | conflict (msg : String)
  | badRequest (msg : String)
  | forbidden (msg : String)
  | unauthorized (msg : String)
  | typeError
  deriving Repr, DecidableEq

/-- Is the error an `Unauthorized` one (any message)? -/
def AppError.isUnauthorized : AppError → Bool
  | .unauthorized _ => true
  | _ => false

/-- Is the result of a validation an `Unauthorized` failure? -/
def resultUnauthorized {α : Type} : Except AppError α → Bool
  | .error e => e.isUnauthorized
  | .ok _ => false

/-! ## Python truthiness of optional parameters -/

/-- `if x:` on an optional integer: `None` and `0` are falsy. -/
def truthyNat : Option Nat → Bool
  | none => false
  | some n => n != 0

/-- `if x:` on an optional string: `None` and `""` are falsy. -/
def truthyStr : Option String → Bool
  | none => false
  | some s => s != ""

/-- Does `hay` start with `needle` (character lists)? -/
def charsStartWith : List Char → List Char → Bool
  | _, [] => true
  | [], _ :: _ => false
  | c :: cs, d :: ds => c == d && charsStartWith cs ds

/-- Does `needle` occur as a contiguous run inside `hay`? -/
def charsContain : List Char → List Char → Bool
  | [], needle => needle.isEmpty
  | c :: cs, needle => charsStartWith (c :: cs) needle || charsContain cs needle

/-- SQL `LIKE '%needle%'`: substring containment (case-sensitive, as under
a binary collation). -/
def strContains (hay needle : String) : Bool :=
  charsContain hay.data needle.data

/-- A parameter bound into a SQL statement.  `pyBuiltin` stands for a Python
builtin function object accidentally passed as a parameter (it never compares
equal to a numeric column value). -/
inductive SqlParam where
  | nat (n : Nat)
  | str (s : String)
  | null
  | pyBuiltin (name : String)
  deriving Repr, DecidableEq

/-- SQL equality of a numeric column against a bound parameter: comparison
with `NULL` or a non-numeric value is never true. -/
def sqlEqNat (column : Nat) : SqlParam → Bool
  | .nat n => column == n
  | _ => false

/-! ## users_services: token issuance/validation and user lookup

`jwt.decode` belongs to the external `jose` collaborator; it is passed in as
a function `decode : String → Option TokenPayload`, where `none` stands for
a `JWTError` (bad signature or expired token) and `some payload` for a
successful decode of a well-signed, unexpired token. -/

/-- A decoded JWT payload: the claims the code reads via `payload.get`,
each `none` when the claim is absent. -/
structure TokenPayload where
  sub : Option String
  is_admin : Option Bool
  deriving Repr, DecidableEq

/-- `users_services.verify_token`.  Faithful to the source:
* a blacklisted token raises `ForbiddenException("Token has been revoked")`
  before any decoding;
* a decode failure (`JWTError`) is caught and re-raised as
  `Unauthorized("Could not validate credentials")`;
* a missing `sub` or `is_admin` claim executes `raise username` /
  `raise is_admin` with the value `None`, which is not an exception object:
  Python raises `TypeError`, and `except JWTError` does not catch it, so the
  `TypeError` escapes (`AppError.typeError`). -/
def verify_token (token_blacklist : List String)
    (decode : String → Option TokenPayload) (token : String) :
    Except AppError Unit :=
  if token_blacklist.contains token then
    .error (.forbidden "Token has been revoked")
  else
    match decode token with
    | none => .error (.unauthorized "Could not validate credentials")
    | some payload =>
      match payload.sub with
      | none => .error .typeError
      | some _ =>
        match payload.is_admin with
        | none => .error .typeError
        | some _ => .ok ()

/-- `users_services.get_user`: `SELECT * FROM users WHERE username=?`,
returning `None` when no row matches. -/
def get_user (db : DB) (username : String) : Option UserRow :=
  db.users.find? (fun u => u.username == username)

/-- `users_services.get_current_user`.  Decode failures become
`Unauthorized`; a missing `sub` claim hits `raise username` (a `TypeError`
escaping the `except JWTError` handler, as in `verify_token`); a missing
`is_admin` claim likewise.  On success the user row is looked up by the
subject username (possibly absent). -/
def get_current_user (db : DB) (decode : String → Option TokenPayload)
    (token : String) : Except AppError (Option UserRow) :=
  match decode token with
  | none => .error (.unauthorized "Could not validate credentials")
  | some payload =>
    match payload.sub with
    | none => .error .typeError
    | some username =>
      match payload.is_admin with
      | none => .error .typeError
      | some _ => .ok (get_user db username)

/-! ## routers/web/replies: the delete-reply authorisation gate -/

/-- The authorisation condition of `delete_reply` in `routers/web/replies.py`:
deletion proceeds (the error branch is NOT taken) exactly when

`not (not (current_user.id == reply.user_id or not current_user.is_admin))`,

i.e. when `current_user.id == reply.user_id or not current_user.is_admin`. -/
def delete_reply_gate (current_user_id : Nat) (current_user_is_admin : Bool)
    (reply_user_id : Nat) : Bool :=
  current_user_id == reply_user_id || !current_user_is_admin

/-- The owner-or-admin gate the specification states (for comparison with
`delete_reply_gate`, which is taken from the source). -/
def owner_or_admin_gate (current_user_id : Nat) (current_user_is_admin : Bool)
    (reply_user_id : Nat) : Bool :=
  current_user_id == reply_user_id || current_user_is_admin

/-! ## categories_services -/

/-- A `CategoryResponse`: the projection `SELECT category_id, name` that
`get_categories` returns per row. -/
structure CategoryResponse where
  id : Nat
  name : String
  deriving Repr, DecidableEq

/-- Build a `CategoryResponse` from a fetched row
(`CategoryResponse.from_query_result`). -/
def CategoryRow.toResponse (c : CategoryRow) : CategoryResponse :=
  ⟨c.category_id, c.name⟩

/-- The `WHERE` portion of the query `get_categories` builds: base select,
then `WHERE category_id = ?` for a truthy `category_id`, then
`AND name LIKE ?` (or `WHERE name LIKE ?` when no id filter) for a truthy
`name`, exactly as the source appends the pieces. -/
def catWhereString (category_id : Option Nat) (name : Option String) :
    String :=
  let q := "SELECT category_id, name FROM categories"
  let q := if truthyNat category_id then q ++ " WHERE category_id = ?" else q
  if truthyStr name then
    q ++ (if truthyNat category_id then " AND name LIKE ?"
          else " WHERE name LIKE ?")
  else q

/-- The bound parameters accompanying `catWhereString`, in append order. -/
def catWhereParams (category_id : Option Nat) (name : Option String) :
    List SqlParam :=
  (if truthyNat category_id then [SqlParam.nat (category_id.getD 0)] else [])
    ++ (if truthyStr name then
          [SqlParam.str ("%" ++ name.getD "" ++ "%")] else [])

/-- The full query string and parameter list `get_categories` sends to
`read_query`, mirroring the source's string building: a truthy `sort_by`
is interpolated verbatim (`f-string`) after `ORDER BY` with no allow-list
check, a truthy `sort` appends its upper-casing, and `LIMIT ? OFFSET ?`
with two bound parameters closes the query. -/
def get_categories_query (category_id : Option Nat) (name : Option String)
    (sort_by sort : Option String) (limit offset : Nat) :
    String × List SqlParam :=
  let q := catWhereString category_id name
  let q := if truthyStr sort_by then q ++ " ORDER BY " ++ sort_by.getD ""
           else q
  let q := if truthyStr sort then q ++ " " ++ (sort.getD "").toUpper else q
  (q ++ " LIMIT ? OFFSET ?",
   catWhereParams category_id name ++ [SqlParam.nat limit, SqlParam.nat offset])

/-- Row predicate of `get_categories`' filters: equality on a truthy
`category_id`, `LIKE '%name%'` on a truthy `name`. -/
def categoriesPred (category_id : Option Nat) (name : Option String)
    (c : CategoryRow) : Bool :=
  (!truthyNat category_id || c.category_id == category_id.getD 0)
    && (!truthyStr name || strContains c.name (name.getD ""))

/-- The rows `read_query` returns for `get_categories` when no `ORDER BY`
clause was added: matching rows in table order, then `OFFSET`, then
`LIMIT`. -/
def catRows (db : DB) (category_id : Option Nat) (name : Option String)
    (limit offset : Nat) : List CategoryRow :=
  ((db.categories.filter (categoriesPred category_id name)).drop offset).take
    limit

/-- The value `get_categories` returns: Python `None`, a single scalar
`CategoryResponse`, or a list of them. -/
inductive CatResult where
  | pyNone
  | single (c : CategoryResponse)
  | many (cs : List CategoryResponse)
  deriving Repr, DecidableEq

/-- `categories_services.get_categories`, row-level semantics.  A truthy
`sort_by` interpolates an arbitrary string into the SQL (see
`get_categories_query`) and a truthy `sort` without it appends a bare
direction keyword; the row-order semantics of those queries lie outside the
relational model, so those calls yield `none`.  Otherwise the fetched rows
are shaped as in the source: a list when more than one row matched,
otherwise `next(generator, None)` — the single row, or Python `None` when
nothing matched. -/
def get_categories (db : DB) (category_id : Option Nat)
    (name : Option String) (sort_by sort : Option String)
    (limit offset : Nat) : Option CatResult :=
  if truthyStr sort_by || truthyStr sort then none
  else
    let rows := catRows db category_id name limit offset
    some (if rows.length > 1 then .many (rows.map CategoryRow.toResponse)
          else
            match rows with
            | [] => .pyNone
            | r :: _ => .single r.toResponse)

/-- `categories_services.exists` (checks by id when a truthy id is given,
else by name when a truthy name is given, else `bool(None)`). -/
def categoryExists (db : DB) (category_id : Option Nat)
    (name : Option String) : Bool :=
  if truthyNat category_id then
    db.categories.any (fun c => c.category_id == category_id.getD 0)
  else if truthyStr name then
    db.categories.any (fun c => c.name == name.getD "")
  else false

/-- `categories_services.has_topics`. -/
def has_topics (db : DB) (category_id : Nat) : Bool :=
  db.topics.any (fun t => t.category_id == category_id)

/-- The write statements `categories_services.delete` can issue, in the
order the source issues them. -/
inductive DbOp where
  | deletePermissions (category_id : Nat)
  | deleteRepliesOfCategory (category_id : Nat)
  | deleteTopicsOfCategory (category_id : Nat)
  | deleteCategory (category_id : Nat)
  deriving Repr, DecidableEq

/-- `categories_services.delete`.  Mirrors the source step by step:
raise `NotFoundException` unless the category exists; delete its
access-permission rows; if `delete_topics` was requested and the category
(still) has topics, delete the replies whose topic belongs to the category
and then those topics; finally delete the category row.  The returned
message depends on the affected-row counts exactly as in the source, and
the issued statements are logged in order. -/
def CategoriesServices.delete (db : DB) (category_id : Nat)
    (delete_topics : Bool) :
    Except AppError (DB × Option String × List DbOp) :=
  if !categoryExists db (some category_id) none then
    .error (.notFound "Category does not exist")
  else
    let db1 : DB :=
      { db with perms := db.perms.filter (fun p => p.category_id != category_id) }
    let topics := has_topics db1 category_id
    if delete_topics && topics then
      let cidTopic := fun (tid : Nat) =>
        db1.topics.any (fun t => t.category_id == category_id && t.topic_id == tid)
      let affectedReplies :=
        (db1.replies.filter (fun r => cidTopic r.topic_id)).length
      let db2 : DB :=
        { db1 with replies := db1.replies.filter (fun r => !cidTopic r.topic_id) }
      let affectedTopics :=
        (db2.topics.filter (fun t => t.category_id == category_id)).length
      let db3 : DB :=
        { db2 with topics := db2.topics.filter (fun t => t.category_id != category_id) }
      let deleted :=
        (db3.categories.filter (fun c => c.category_id == category_id)).length
      let db4 : DB :=
        { db3 with categories :=
            db3.categories.filter (fun c => c.category_id != category_id) }
      let log := [DbOp.deletePermissions category_id,
                  DbOp.deleteRepliesOfCategory category_id,
                  DbOp.deleteTopicsOfCategory category_id,
                  DbOp.deleteCategory category_id]
      if deleted == 0 then .ok (db4, none, log)
      else if affectedReplies > 0 && affectedTopics > 0 then
        .ok (db4, some "everything deleted", log)
      else .ok (db4, some "only category deleted", log)
    else
      let deleted :=
        (db1.categories.filter (fun c => c.category_id == category_id)).length
      let db2 : DB :=
        { db1 with categories :=
            db1.categories.filter (fun c => c.category_id != category_id) }
      let log := [DbOp.deletePermissions category_id,
                  DbOp.deleteCategory category_id]
      if deleted == 0 then .ok (db2, none, log)
      else .ok (db2, some "only category deleted", log)

/-! ## topics_services -/

/-- `topics_services.exists`.  The source runs
`SELECT 1 FROM topics WHERE topic_id=?` but binds `(id,)` — the Python
builtin function `id`, not the `topic_id` argument — so the bound parameter
is a function object independent of the requested topic.  The embedded
column comparison follows `sqlEqNat`: a numeric column never equals that
value. -/
def topicExists (db : DB) (topic_id : Nat) : Bool :=
  db.topics.any (fun t => sqlEqNat t.topic_id (SqlParam.pyBuiltin "id"))

/-- A row of the join `fetch_all_topics` selects: topic columns, the
author's username, the category name, plus the category's privacy flag and
the current user's permission row (from the `LEFT JOIN`, `none` when
absent) that the access filter reads. -/
structure TopicJoinRow where
  topic_id : Nat
  title : String
  user_id : Nat
  username : String
  is_locked : Bool
  best_reply_id : Option Nat
  category_id : Nat
  category_name : String
  is_private : Bool
  write_access : Option Nat
  deriving Repr, DecidableEq

/-- `TopicResponse.from_query`: the eight selected columns.
Modelled from the spec: `data.models.topic` is not among the provided
sources; per the data model a topic response carries id, title, owning
user id and name, locked flag, optional best-reply id, category id and
name. -/
structure TopicResponse where
  topic_id : Nat
  title : String
  user_id : Nat
  username : String
  is_locked : Bool
  best_reply_id : Option Nat
  category_id : Nat
  category_name : String
  deriving Repr, DecidableEq

/-- Project a join row onto the selected response columns. -/
def TopicJoinRow.toResponse (r : TopicJoinRow) : TopicResponse :=
  ⟨r.topic_id, r.title, r.user_id, r.username, r.is_locked,
   r.best_reply_id, r.category_id, r.category_name⟩

/-- The join of `fetch_all_topics` for the current user `uid`:
`topics JOIN users ON user_id JOIN categories ON category_id LEFT JOIN
users_categories_permissions ucp ON ucp.category_id = c.category_id AND
ucp.user_id = ?`.  Primary keys (`user_id`, `category_id`, and the
composite permission key) are unique, so each topic contributes at most
one row and the `DISTINCT` is a no-op. -/
def topicJoinRows (db : DB) (uid : Nat) : List TopicJoinRow :=
  db.topics.filterMap (fun t =>
    match db.users.find? (fun u => u.user_id == t.user_id),
          db.categories.find? (fun c => c.category_id == t.category_id) with
    | some u, some c =>
      some ⟨t.topic_id, t.title, t.user_id, u.username, t.is_locked,
            t.best_reply_id, t.category_id, c.name, c.is_private,
            (db.perms.find? (fun p =>
              p.category_id == c.category_id && p.user_id == uid)).map
              (fun p => p.write_access)⟩
    | _, _ => none)

/-- The conjunction of the `WHERE` filters `fetch_all_topics` appends:
the private-category access clause for non-admins (`NULL > 0` is not
true, per SQL three-valued logic), `t.title LIKE '%search%'`,
`u.username = ?`, `c.name = ?`, and `t.is_locked = ?` when `status` is
exactly `'open'` or `'closed'`. -/
def topicsPred (is_admin : Bool) (search username category status :
    Option String) (r : TopicJoinRow) : Bool :=
  (is_admin || (!r.is_private || (r.is_private && r.write_access.getD 0 > 0)))
    && (!truthyStr search || strContains r.title (search.getD ""))
    && (!truthyStr username || r.username == username.getD "")
    && (!truthyStr category || r.category_name == category.getD "")
    && (!(status == some "closed") || r.is_locked == true)
    && (!(status == some "open") || r.is_locked == false)

/-- Insert into a list sorted by `le` (model of the database's sort). -/
def insertSorted {α : Type} (le : α → α → Bool) (a : α) :
    List α → List α
  | [] => [a]
  | b :: bs => if le a b then a :: b :: bs else b :: insertSorted le a bs

/-- Insertion sort: the embedding of `ORDER BY` (the engine's order among
equal keys is unspecified; insertion-sort order stands in for it). -/
def sortRows {α : Type} (le : α → α → Bool) : List α → List α
  | [] => []
  | a :: as => insertSorted le a (sortRows le as)

/-- The sortable columns of the topics query.  `status` appears in the
source's allow-list but names no selected column, so `ORDER BY status`
is rejected by the database (unknown column). -/
def topicSortKey : String → Option (TopicJoinRow → Nat)
  | "topic_id" => some (fun r => r.topic_id)
  | "user_id" => some (fun r => r.user_id)
  | "category_id" => some (fun r => r.category_id)
  | _ => none

/-- The source's sort-field allow-list for topics. -/
def topicSortAllowList : List String :=
  ["topic_id", "user_id", "category_id", "status"]

/-- What `fetch_all_topics` returns on success. -/
structure TopicsPage where
  topics : List TopicResponse
  total_pages : Nat
  current_page : Nat
  total_count : Nat
  deriving Repr, DecidableEq

/-- The value of a `fetch_all_topics` call: Python `None` when no current
user was supplied, a database error (`ORDER BY status` names an unknown
column), or the result dict. -/
inductive TopicsFetch where
  | noUser
  | dbError
  | ok (page : TopicsPage)
  deriving Repr, DecidableEq

/-- The `ORDER BY` step of `fetch_all_topics`: sorting happens only when
`sort_by` is (truthy and) in the allow-list — ascending exactly when
`sort == 'asc'`, else descending; `none` is the database rejecting
`ORDER BY status` (no selected column of that name). -/
def applySort (sort : Option String) (sort_by : Option String)
    (rows : List TopicJoinRow) : Option (List TopicJoinRow) :=
  match sort_by with
  | none => some rows
  | some sb =>
    if sb != "" && topicSortAllowList.contains sb then
      match topicSortKey sb with
      | some key =>
        some (if sort == some "asc" then
                sortRows (fun a b => key a ≤ key b) rows
              else sortRows (fun a b => key b ≤ key a) rows)
      | none => none
    else some rows

/-- The rows matching all the `WHERE` filters of `fetch_all_topics` (also
the row set its count query measures). -/
def topicsFiltered (db : DB) (u : UserRow)
    (search username category status : Option String) :
    List TopicJoinRow :=
  (topicJoinRows db u.user_id).filter
    (topicsPred u.is_admin search username category status)

/-- `topics_services.fetch_all_topics`.  Mirrors the source: return `None`
without a current user; filter the join conjunctively; compute
`total_count` by the count query over the same filters (no limit/offset)
and `total_pages = (total_count + per_page - 1) // per_page`; sort via
`applySort`; finally `LIMIT per_page OFFSET (page - 1) * per_page`. -/
def fetch_all_topics (db : DB) (search username category status :
    Option String) (sort sort_by : Option String) (page per_page : Nat)
    (current_user : Option UserRow) : TopicsFetch :=
  match current_user with
  | none => .noUser
  | some u =>
    let filtered := topicsFiltered db u search username category status
    let total_count := filtered.length
    let total_pages := (total_count + per_page - 1) / per_page
    match applySort sort sort_by filtered with
    | none => .dbError
    | some sorted =>
      let pageRows := (sorted.drop ((page - 1) * per_page)).take per_page
      .ok ⟨pageRows.map TopicJoinRow.toResponse, total_pages, page,
           total_count⟩

/-- Step 1 of `topics_services.delete_topic`:
`UPDATE topics SET best_reply_id = NULL WHERE topic_id = ?`. -/
def clearBestReply (db : DB) (topic_id : Nat) : DB :=
  { db with topics := db.topics.map (fun t =>
      if t.topic_id == topic_id then { t with best_reply_id := none } else t) }

/-- Step 2 of `topics_services.delete_topic`:
`DELETE FROM replies WHERE topic_id = ?`. -/
def deleteRepliesOfTopic (db : DB) (topic_id : Nat) : DB :=
  { db with replies := db.replies.filter (fun r => r.topic_id != topic_id) }

/-- Step 3 of `topics_services.delete_topic`:
`DELETE FROM topics WHERE topic_id = ?`. -/
def deleteTopicRow (db : DB) (topic_id : Nat) : DB :=
  { db with topics := db.topics.filter (fun t => t.topic_id != topic_id) }

/-- The statements `delete_topic` issues, in order. -/
inductive TopicOp where
  | clearBest (topic_id : Nat)
  | delReplies (topic_id : Nat)
  | delTopic (topic_id : Nat)
  deriving Repr, DecidableEq

/-- `topics_services.delete_topic`: null the topic's best-reply reference,
delete its replies, delete the topic row — in that order. -/
def delete_topic (db : DB) (topic_id : Nat) : DB × List TopicOp :=
  (deleteTopicRow (deleteRepliesOfTopic (clearBestReply db topic_id)
      topic_id) topic_id,
   [TopicOp.clearBest topic_id, TopicOp.delReplies topic_id,
    TopicOp.delTopic topic_id])

/-- `topics_services.remove_best_reply`:
`UPDATE topics SET best_reply_id = NULL WHERE best_reply_id = ?`. -/
def remove_best_reply (db : DB) (reply_id : Nat) : DB :=
  { db with topics := db.topics.map (fun t =>
      if t.best_reply_id == some reply_id then { t with best_reply_id := none }
      else t) }

/-- Every topic's best-reply reference, when set, names a reply row that
exists and belongs to that topic (the service-layer referential-integrity
invariant of the data model). -/
def bestReplyOwn (db : DB) : Bool :=
  db.topics.all (fun t =>
    match t.best_reply_id with
    | none => true
    | some b => db.replies.any (fun r =>
        r.reply_id == b && r.topic_id == t.topic_id))

/-! ## replies_services -/

/-- The user-id filter value of `get_replies`.  When `user_name` is truthy
the source reads
`SELECT u.user_id FROM users u JOIN replies r ON u.user_id = r.user_id
WHERE u.username = ? LIMIT 1` (the first user with that name who has at
least one reply) and, when a row comes back, that id replaces any supplied
`user_id`; otherwise the supplied `user_id` (possibly Python `None`) is
bound. -/
def resolveUserId (db : DB) (user_id : Option Nat)
    (user_name : Option String) : Option Nat :=
  if truthyStr user_name then
    match db.users.find? (fun u =>
        u.username == user_name.getD ""
          && db.replies.any (fun r => r.user_id == u.user_id)) with
    | some u => some u.user_id
    | none => user_id
  else user_id

/-- The conjunction of the filters `get_replies` appends to `WHERE 1=1`
in the calls that reach the database without erroring: equality on a
truthy `reply_id`, `LIKE '%text%'` on a truthy `text`, `user_id = ?` with
the resolved user id when `user_id` or `user_name` is truthy (binding
`NULL` matches nothing), and `topic_id = ?` on a truthy `topic_id`.
A truthy `topic_title` and the date filters never contribute a working
conjunct: they make the call fail at the database (see `get_replies`). -/
def replyPred (db : DB) (reply_id : Option Nat) (text : Option String)
    (user_id : Option Nat) (user_name : Option String)
    (topic_id : Option Nat) (r : ReplyRow) : Bool :=
  (!truthyNat reply_id || r.reply_id == reply_id.getD 0)
    && (!truthyStr text || strContains r.text (text.getD ""))
    && (!(truthyNat user_id || truthyStr user_name)
        || resolveUserId db user_id user_name == some r.user_id)
    && (!truthyNat topic_id || r.topic_id == topic_id.getD 0)

/-- The rows `read_query` returns for `get_replies` when the constructed
query executes and has no `ORDER BY` clause: matching rows in table
order, then `OFFSET`, then `LIMIT`. -/
def repRows (db : DB) (reply_id : Option Nat) (text : Option String)
    (user_id : Option Nat) (user_name : Option String)
    (topic_id : Option Nat) (limit offset : Nat) : List ReplyRow :=
  ((db.replies.filter (replyPred db reply_id text user_id user_name
      topic_id)).drop offset).take limit

/-- The outcome of a `get_replies` call: a database error escaping the
service (the engine rejects the SQL it was sent), the raised
`NotFoundException`, a single scalar `Reply`, or a list. -/
inductive RepResult where
  | dbError
  | err (e : AppError)
  | single (r : ReplyRow)
  | many (rs : List ReplyRow)
  deriving Repr, DecidableEq

/-- `replies_services.get_replies`.  Two of its paths error at the
database and never produce rows:
* a truthy `topic_title` runs the lookup
  `SELECT t.topic_id FROM topics t JOIN replies r ... WHERE
  t.topic_title = ? LIMIT 1`, but the topics table's title column is
  named `title` (see `topics_services`' selects, insert and update), so
  the engine rejects the unknown column `t.topic_title` — as with
  `ORDER BY status` in `topicSortKey`, this is modelled as `dbError`,
  not as a working title match;
* a supplied `start_date` or `end_date` is appended as
  `'''AND created > ?'''` / `'''AND created < ?'''` with no leading
  space, gluing onto the previous token (`WHERE 1=1AND created > ?`),
  so the engine rejects the malformed statement (datetime objects are
  always truthy, so `None` is the only harmless value).

A truthy `sort_by` or `sort` splices raw text into the SQL as in
`get_categories`; those calls yield `none` (unmodelled string
semantics).  Otherwise the source raises
`NotFoundException('No matching replies found')` on an empty result,
returns the single `Reply` when fewer than two rows matched, and a list
otherwise. -/
def get_replies (db : DB) (reply_id : Option Nat) (text : Option String)
    (user_id : Option Nat) (user_name : Option String)
    (topic_id : Option Nat) (topic_title : Option String)
    (sort_by sort : Option String) (start_date end_date : Option Nat)
    (limit offset : Nat) : Option RepResult :=
  if truthyStr topic_title then some .dbError
  else if start_date.isSome || end_date.isSome then some .dbError
  else if truthyStr sort_by || truthyStr sort then none
  else
    some (match repRows db reply_id text user_id user_name topic_id
        limit offset with
      | [] => .err (.notFound "No matching replies found")
      | [r] => .single r
      | rs => .many rs)

/-! ## Helper lemmas about the sort model -/

theorem mem_insertSorted {α : Type} (le : α → α → Bool) (a b : α)
    (l : List α) : b ∈ insertSorted le a l ↔ b = a ∨ b ∈ l := by
  induction l with
  | nil => simp [insertSorted]
  | cons c cs ih =>
    simp only [insertSorted]
    split
    · simp
    · simp only [List.mem_cons, ih]
      tauto

theorem mem_sortRows {α : Type} (le : α → α → Bool) (a : α)
    (l : List α) : a ∈ sortRows le l ↔ a ∈ l := by
  induction l with
  | nil => simp [sortRows]
  | cons c cs ih => simp [sortRows, mem_insertSorted, ih]

/-- Rows coming out of the `ORDER BY` step all come from its input. -/
theorem mem_of_applySort (sort sort_by : Option String)
    (rows sorted : List TopicJoinRow) (x : TopicJoinRow)
    (heq : applySort sort sort_by rows = some sorted)
    (hx : x ∈ sorted) : x ∈ rows := by
  unfold applySort at heq
  split at heq
  · cases heq
    exact hx
  · split at heq
    · split at heq
      · cases heq
        split at hx
        · exact (mem_sortRows _ _ _).1 hx
        · exact (mem_sortRows _ _ _).1 hx
      · cases heq
    · cases heq
      exact hx

/-! ## Post-state predicates for the deletion claims -/

/-- No topic row of `db'` references category `cid`. -/
def noTopicRefs (db' : DB) (cid : Nat) : Bool :=
  db'.topics.all (fun t => t.category_id != cid)

/-- No reply row of `db'` belongs to a topic that, in `db`, was in
category `cid`. -/
def noReplyRefs (db' db : DB) (cid : Nat) : Bool :=
  db'.replies.all (fun r => db.topics.all (fun t =>
    !(t.category_id == cid) || r.topic_id != t.topic_id))

/-! ## Helper lemmas for best-reply integrity across delete_topic -/

theorem bestReplyOwn_clearBestReply (db : DB) (tid : Nat)
    (h : bestReplyOwn db = true) :
    bestReplyOwn (clearBestReply db tid) = true := by
  simp only [bestReplyOwn, clearBestReply, List.all_eq_true] at h ⊢
  intro t ht
  simp only [List.mem_map] at ht
  obtain ⟨t0, ht0, rfl⟩ := ht
  by_cases hc : (t0.topic_id == tid) = true
  · simp [hc]
  · rw [if_neg hc]
    exact h t0 ht0

theorem clearBestReply_clears (db : DB) (tid : Nat) :
    ∀ t ∈ (clearBestReply db tid).topics, t.topic_id = tid →
      t.best_reply_id = none := by
  intro t ht htid
  simp only [clearBestReply, List.mem_map] at ht
  obtain ⟨t0, ht0, rfl⟩ := ht
  by_cases hc : (t0.topic_id == tid) = true
  · simp [hc]
  · rw [if_neg hc] at htid
    exact absurd (by simpa using htid) (by simpa using hc)

theorem bestReplyOwn_deleteRepliesOfTopic (s : DB) (tid : Nat)
    (hint : bestReplyOwn s = true)
    (hclear : ∀ t ∈ s.topics, t.topic_id = tid → t.best_reply_id = none) :
    bestReplyOwn (deleteRepliesOfTopic s tid) = true := by
  simp only [bestReplyOwn, deleteRepliesOfTopic, List.all_eq_true]
    at hint ⊢
  intro t ht
  have hpred := hint t ht
  by_cases hc : t.topic_id = tid
  · simp [hclear t ht hc]
  · cases hb : t.best_reply_id with
    | none => simp
    | some b =>
      simp only [hb, List.any_eq_true] at hpred ⊢
      obtain ⟨r, hr, hrp⟩ := hpred
      simp only [Bool.and_eq_true, beq_iff_eq] at hrp
      refine ⟨r, List.mem_filter.2 ⟨hr, ?_⟩, ?_⟩
      · simp only [bne_iff_ne, ne_eq, hrp.2]
        exact hc
      · simp [hrp.1, hrp.2]

theorem bestReplyOwn_deleteTopicRow (s : DB) (tid : Nat)
    (hint : bestReplyOwn s = true) :
    bestReplyOwn (deleteTopicRow s tid) = true := by
  simp only [bestReplyOwn, deleteTopicRow, List.all_eq_true] at hint ⊢
  intro t ht
  exact hint t (List.mem_filter.1 ht).1

/-! ## Claims -/

/-- C1: the claim says delete-reply deletion proceeds iff the acting user
is the reply's owner or an admin.  The source's gate
(`current_user.id == reply.user_id or not current_user.is_admin`) is the
owner-or-admin check with the admin test inverted: at
`current_user.id = 2, is_admin = False, reply.user_id = 1` the gate admits
a user who is neither owner nor admin, and at
`current_user.id = 2, is_admin = True, reply.user_id = 1` it rejects an
admin, each the opposite of the intended owner-or-admin gate. -/
theorem c1_delete_reply_gate_inverted :
    delete_reply_gate 2 false 1 = true
      ∧ owner_or_admin_gate 2 false 1 = false
      ∧ delete_reply_gate 2 true 1 = false
      ∧ owner_or_admin_gate 2 true 1 = true := by
  decide

/-- C3: the claim says a decodable token whose payload lacks the subject
or admin claim fails validation with an "unauthorized" error.  Validation
does fail, but through `raise username` / `raise is_admin` with the value
`None`, i.e. an uncaught `TypeError`, never the unauthorized error: the
code contradicts the evident intent of its own
`except JWTError: raise Unauthorized(...)` handler. -/
theorem c3_missing_claims_raise_typeerror :
    verify_token [] (fun _ => some ⟨none, some true⟩) "tok"
        = .error .typeError
      ∧ verify_token [] (fun _ => some ⟨some "alice", none⟩) "tok"
        = .error .typeError
      ∧ get_current_user ⟨[], [], [], [], []⟩
          (fun _ => some ⟨none, some true⟩) "tok" = .error .typeError
      ∧ get_current_user ⟨[], [], [], [], []⟩
          (fun _ => some ⟨some "alice", none⟩) "tok" = .error .typeError
      ∧ resultUnauthorized
          (verify_token [] (fun _ => some ⟨none, some true⟩) "tok") = false :=
  ⟨rfl, rfl, rfl, rfl, rfl⟩

/-- C10: `topics_services.exists` binds the Python builtin `id` instead of
the `topic_id` argument, so for a fixed database it computes the same
answer for every requested topic id — the check never tests the requested
topic. -/
theorem c10_topicExists_ignores_argument (db : DB) (t1 t2 : Nat) :
    topicExists db t1 = topicExists db t2 := rfl

/-- C2, counterexample: a revoked token does fail validation before
expiry, but it is classified as Forbidden
(`ForbiddenException("Token has been revoked")`), not Unauthorized as the
claim's error taxonomy requires.  Here the decode succeeds (the token is
well signed and unexpired), yet membership in the revocation set yields
the forbidden error. -/
theorem c2_counterexample_revoked_is_forbidden :
    verify_token ["revoked"] (fun _ => some ⟨some "alice", some false⟩)
        "revoked" = .error (.forbidden "Token has been revoked")
      ∧ resultUnauthorized (verify_token ["revoked"]
          (fun _ => some ⟨some "alice", some false⟩) "revoked") = false :=
  ⟨rfl, rfl⟩

/-- C2, amended: for every token present in the revocation set, validation
fails even before the token's natural expiry (whatever the decoder would
say), but the revoked credential is classified as Forbidden, not
Unauthorized. -/
theorem c2_amended_revoked_fails_as_forbidden
    (token_blacklist : List String)
    (decode : String → Option TokenPayload) (token : String)
    (h : token_blacklist.contains token = true) :
    verify_token token_blacklist decode token
      = .error (.forbidden "Token has been revoked") := by
  unfold verify_token
  split
  · rfl
  · next hc => exact absurd h hc

/-- C2, witness for the amended theorem at a concrete revoked token. -/
theorem c2_amended_witness :
    verify_token ["revoked"] (fun _ => some ⟨some "alice", some false⟩)
        "revoked" = .error (.forbidden "Token has been revoked") :=
  c2_amended_revoked_fails_as_forbidden ["revoked"]
    (fun _ => some ⟨some "alice", some false⟩) "revoked" (by decide)

/-- C5, counterexample: the claim says every listing ignores a `sort_by`
outside the entity's allow-list, adding no `ORDER BY` clause for it.
`get_categories` has no allow-list at all: a hostile `sort_by` is
interpolated verbatim after `ORDER BY` into the constructed query, which
therefore differs from the query built without a sort field. -/
theorem c5_counterexample_categories_sort_interpolated :
    (get_categories_query none none
        (some "name; DROP TABLE categories; --") none 10 0).1
      = "SELECT category_id, name FROM categories ORDER BY name; DROP TABLE categories; -- LIMIT ? OFFSET ?"
      ∧ (get_categories_query none none
          (some "name; DROP TABLE categories; --") none 10 0).1
        ≠ (get_categories_query none none none none 10 0).1 := by
  exact ⟨rfl, by decide⟩

/-- C5, amended: only the topics listing validates `sort_by` against its
fixed allow-list — a value outside
`['topic_id', 'user_id', 'category_id', 'status']` is ignored, giving
exactly the result of the same call with no sort field and raising no
error; the categories listing instead interpolates any truthy `sort_by`
verbatim into `ORDER BY` with no validation. -/
theorem c5_amended_only_topics_validate_sort
    (db : DB) (search username category status sort : Option String)
    (sb : String) (page per_page : Nat) (cu : Option UserRow)
    (category_id : Option Nat) (name : Option String) (limit offset : Nat)
    (hallow : topicSortAllowList.contains sb = false) (hne : sb ≠ "") :
    fetch_all_topics db search username category status sort (some sb)
        page per_page cu
      = fetch_all_topics db search username category status sort none
          page per_page cu
      ∧ (get_categories_query category_id name (some sb) none limit
          offset).1
        = catWhereString category_id name ++ " ORDER BY " ++ sb
            ++ " LIMIT ? OFFSET ?" := by
  have hallow' : sb ∉ topicSortAllowList := by simpa using hallow
  constructor
  · cases cu with
    | none => rfl
    | some u => simp [fetch_all_topics, applySort, hallow']
  · simp [get_categories_query, truthyStr, hne]

/-- C5, witness for the amended theorem at a concrete out-of-allow-list
sort field. -/
theorem c5_amended_witness :
    fetch_all_topics ⟨[], [], [], [], []⟩ none none none none none
        (some "created") 1 10 none
      = fetch_all_topics ⟨[], [], [], [], []⟩ none none none none none
          none 1 10 none
      ∧ (get_categories_query none none (some "created") none 10 0).1
        = catWhereString none none ++ " ORDER BY " ++ "created"
            ++ " LIMIT ? OFFSET ?" :=
  c5_amended_only_topics_validate_sort ⟨[], [], [], [], []⟩ none none none
    none none "created" 1 10 none none none 10 0 (by decide) (by decide)

/-- C4, counterexample: the claim says multi-row listings return a
collection regardless of match count.  On the code: with exactly one
matching category, `get_categories` returns a scalar `CategoryResponse`
(not a one-element list); with zero matches it returns Python `None`
(not an empty list); `get_replies` raises
`NotFoundException('No matching replies found')` on zero matches and
returns a scalar `Reply` on exactly one. -/
theorem c4_counterexample_listing_collapses_shape :
    get_categories
        ⟨[], [⟨1, "General", false, false⟩, ⟨2, "Random", false, false⟩],
         [], [], []⟩ none (some "Gen") none none 10 0
      = some (.single ⟨1, "General"⟩)
      ∧ some (CatResult.single ⟨1, "General"⟩)
        ≠ some (CatResult.many [⟨1, "General"⟩])
      ∧ get_categories
          ⟨[], [⟨1, "General", false, false⟩, ⟨2, "Random", false, false⟩],
           [], [], []⟩ none (some "ZZZ") none none 10 0
        = some .pyNone
      ∧ some CatResult.pyNone ≠ some (CatResult.many [])
      ∧ get_replies ⟨[], [], [], [], []⟩ none none none none none none
          none none none none 10 0
        = some (.err (.notFound "No matching replies found"))
      ∧ get_replies ⟨[], [], [], [⟨10, "hi", 2, 1, 5, false⟩], []⟩ none
          none none none none none none none none none 10 0
        = some (.single ⟨10, "hi", 2, 1, 5, false⟩) :=
  ⟨rfl, by decide, rfl, by decide, rfl, rfl⟩

/-- C4, amended: for calls whose constructed query actually executes —
no `topic_title` (its lookup names the non-existent column
`t.topic_title`) and no date filter (the glued `AND created` makes the
SQL malformed), both of which instead fail at the database — the
listings collapse their result shape by match count: `get_categories`
returns Python `None` on zero fetched rows, the scalar response on
exactly one, and a list only for two or more; `get_replies` raises
`NotFoundException` on zero fetched rows, returns the scalar reply on
exactly one, and a list only for two or more. -/
theorem c4_amended_shape_by_match_count
    (dbz dbo dbm : DB) (category_id : Option Nat) (name : Option String)
    (limit offset : Nat) (c c1 c2 : CategoryRow) (rest : List CategoryRow)
    (dbrz dbro dbrm : DB) (reply_id : Option Nat) (text : Option String)
    (user_id : Option Nat) (user_name : Option String)
    (topic_id : Option Nat) (rlimit roffset : Nat)
    (r r1 r2 : ReplyRow) (rrest : List ReplyRow)
    (tt : String) (d : Nat)
    (htt : tt ≠ "")
    (hz : catRows dbz category_id name limit offset = [])
    (ho : catRows dbo category_id name limit offset = [c])
    (hm : catRows dbm category_id name limit offset = c1 :: c2 :: rest)
    (hrz : repRows dbrz reply_id text user_id user_name topic_id
        rlimit roffset = [])
    (hro : repRows dbro reply_id text user_id user_name topic_id
        rlimit roffset = [r])
    (hrm : repRows dbrm reply_id text user_id user_name topic_id
        rlimit roffset = r1 :: r2 :: rrest) :
    get_categories dbz category_id name none none limit offset
        = some .pyNone
      ∧ get_categories dbo category_id name none none limit offset
        = some (.single c.toResponse)
      ∧ get_categories dbm category_id name none none limit offset
        = some (.many ((c1 :: c2 :: rest).map CategoryRow.toResponse))
      ∧ get_replies dbrz reply_id text user_id user_name topic_id
          none none none none none rlimit roffset
        = some (.err (.notFound "No matching replies found"))
      ∧ get_replies dbro reply_id text user_id user_name topic_id
          none none none none none rlimit roffset
        = some (.single r)
      ∧ get_replies dbrm reply_id text user_id user_name topic_id
          none none none none none rlimit roffset
        = some (.many (r1 :: r2 :: rrest))
      ∧ get_replies dbrz reply_id text user_id user_name topic_id
          (some tt) none none none none rlimit roffset
        = some .dbError
      ∧ get_replies dbrz reply_id text user_id user_name topic_id
          none none none (some d) none rlimit roffset
        = some .dbError := by
  refine ⟨?_, ?_, ?_, ?_, ?_, ?_, ?_, ?_⟩
  · simp [get_categories, truthyStr, hz]
  · simp [get_categories, truthyStr, ho]
  · simp [get_categories, truthyStr, hm]
  · simp [get_replies, truthyStr, hrz]
  · simp [get_replies, truthyStr, hro]
  · simp [get_replies, truthyStr, hrm]
  · simp [get_replies, truthyStr, htt]
  · simp [get_replies, truthyStr]

/-- C4, witness for the amended theorem: concrete databases realising the
zero-, one- and many-match cases for both listings, and the two
database-error paths of `get_replies`. -/
theorem c4_amended_witness :
    get_categories ⟨[], [], [], [], []⟩ none none none none 10 0
        = some .pyNone
      ∧ get_categories ⟨[], [⟨1, "A", false, false⟩], [], [], []⟩ none
          none none none 10 0
        = some (.single (CategoryRow.toResponse ⟨1, "A", false, false⟩))
      ∧ get_categories
          ⟨[], [⟨1, "A", false, false⟩, ⟨2, "B", false, false⟩], [], [],
           []⟩ none none none none 10 0
        = some (.many (([⟨1, "A", false, false⟩,
            ⟨2, "B", false, false⟩] : List CategoryRow).map
            CategoryRow.toResponse))
      ∧ get_replies ⟨[], [], [], [], []⟩ none none none none none none
          none none none none 10 0
        = some (.err (.notFound "No matching replies found"))
      ∧ get_replies ⟨[], [], [], [⟨10, "hi", 2, 1, 5, false⟩], []⟩ none
          none none none none none none none none none 10 0
        = some (.single ⟨10, "hi", 2, 1, 5, false⟩)
      ∧ get_replies
          ⟨[], [], [],
           [⟨10, "hi", 2, 1, 5, false⟩, ⟨11, "yo", 3, 1, 6, false⟩],
           []⟩ none none none none none none none none none none 10 0
        = some (.many [⟨10, "hi", 2, 1, 5, false⟩,
            ⟨11, "yo", 3, 1, 6, false⟩])
      ∧ get_replies ⟨[], [], [], [], []⟩ none none none none none
          (some "T") none none none none 10 0 = some .dbError
      ∧ get_replies ⟨[], [], [], [], []⟩ none none none none none none
          none none (some 5) none 10 0 = some .dbError :=
  c4_amended_shape_by_match_count
    ⟨[], [], [], [], []⟩ ⟨[], [⟨1, "A", false, false⟩], [], [], []⟩
    ⟨[], [⟨1, "A", false, false⟩, ⟨2, "B", false, false⟩], [], [], []⟩
    none none 10 0 ⟨1, "A", false, false⟩ ⟨1, "A", false, false⟩
    ⟨2, "B", false, false⟩ []
    ⟨[], [], [], [], []⟩ ⟨[], [], [], [⟨10, "hi", 2, 1, 5, false⟩], []⟩
    ⟨[], [], [],
     [⟨10, "hi", 2, 1, 5, false⟩, ⟨11, "yo", 3, 1, 6, false⟩], []⟩
    none none none none none 10 0
    ⟨10, "hi", 2, 1, 5, false⟩ ⟨10, "hi", 2, 1, 5, false⟩
    ⟨11, "yo", 3, 1, 6, false⟩ []
    "T" 5 (by decide)
    rfl rfl rfl rfl rfl rfl

/-- C8: for every paginated topics listing with page size `per_page ≥ 1`,
at most `per_page` rows come back, `total_count` is the size of the row
set matching the same filter predicate with no limit/offset applied, and
`total_pages` is the ceiling division `total_count ⌈/⌉ per_page`
(computed as `(total_count + per_page - 1) // per_page`). -/
theorem c8_pagination_limit_and_ceiling
    (db : DB) (search username category status sort sort_by : Option String)
    (page per_page : Nat) (u : UserRow) (pg : TopicsPage)
    (hpp : 0 < per_page)
    (h : fetch_all_topics db search username category status sort sort_by
        page per_page (some u) = .ok pg) :
    pg.topics.length ≤ per_page
      ∧ pg.total_count
        = (topicsFiltered db u search username category status).length
      ∧ pg.total_pages = (pg.total_count + per_page - 1) / per_page
      ∧ pg.total_pages = pg.total_count ⌈/⌉ per_page
      ∧ pg.total_count ≤ per_page * pg.total_pages := by
  simp only [fetch_all_topics] at h
  split at h
  · cases h
  · injection h with h'
    subst h'
    refine ⟨?_, rfl, rfl, ?_, ?_⟩
    · simp only [List.length_map, List.length_take]
      omega
    · exact (Nat.ceilDiv_eq_add_pred_div _ _).symm
    · have hle := le_smul_ceilDiv (β := ℕ) hpp
        (b := (topicsFiltered db u search username category status).length)
      simpa [smul_eq_mul, Nat.ceilDiv_eq_add_pred_div] using hle

/-- C8, witness: one matching topic, page size 10 — one row, one page. -/
theorem c8_pagination_witness :
    ([(⟨1, "Hello", 1, "alice", false, none, 1, "Gen"⟩ : TopicResponse)]
        : List TopicResponse).length ≤ 10
      ∧ (1 : Nat) = (topicsFiltered
          ⟨[⟨1, "alice", false⟩], [⟨1, "Gen", false, false⟩],
           [⟨1, "Hello", 1, false, none, 1⟩], [], []⟩
          ⟨1, "alice", false⟩ (some "Hell") (some "alice") (some "Gen")
          (some "open")).length
      ∧ (1 : Nat) = (1 + 10 - 1) / 10
      ∧ (1 : Nat) = 1 ⌈/⌉ 10
      ∧ (1 : Nat) ≤ 10 * 1 :=
  c8_pagination_limit_and_ceiling
    ⟨[⟨1, "alice", false⟩], [⟨1, "Gen", false, false⟩],
     [⟨1, "Hello", 1, false, none, 1⟩], [], []⟩
    (some "Hell") (some "alice") (some "Gen") (some "open") none none
    1 10 ⟨1, "alice", false⟩
    ⟨[⟨1, "Hello", 1, "alice", false, none, 1, "Gen"⟩], 1, 1, 1⟩
    (by decide) rfl

/-- C9, counterexample: the claim says every returned row satisfies all
supplied filter predicates conjunctively.  Supplying both `user_id = 1`
and `user_name = 'bob'` to `get_replies`, where user 2 ('bob') has a
reply, makes the username lookup overwrite the supplied `user_id`: the
call returns the reply of user 2, violating the supplied `user_id = 1`
predicate. -/
theorem c9_counterexample_username_overrides_user_id :
    get_replies
        ⟨[⟨1, "alice", false⟩, ⟨2, "bob", false⟩], [],
         [⟨1, "T", 1, false, none, 1⟩], [⟨10, "hi", 2, 1, 5, false⟩], []⟩
        none none (some 1) (some "bob") none none none none none none
        10 0
      = some (.single ⟨10, "hi", 2, 1, 5, false⟩)
      ∧ (⟨10, "hi", 2, 1, 5, false⟩ : ReplyRow).user_id ≠ 1 :=
  ⟨rfl, by decide⟩

/-- C9, amended: for the topics listing the claim holds as stated — every
returned row satisfies every supplied predicate conjunctively (title
contains `search`, author username equals `username`, category name
equals `category`, locked state matches `status`).  In `get_replies` a
resolvable `user_name` instead overrides any supplied `user_id`, so that
id predicate can be violated when both are supplied with conflicting
values.  (A supplied `topic_title` overrides nothing: its lookup errors
at the database on the unknown column `t.topic_title`.) -/
theorem c9_amended_topics_filters_conjunctive
    (db : DB) (search username category status sort sort_by : Option String)
    (page per_page : Nat) (u : UserRow) (pg : TopicsPage)
    (row : TopicResponse)
    (h : fetch_all_topics db search username category status sort sort_by
        page per_page (some u) = .ok pg)
    (hrow : row ∈ pg.topics) :
    (truthyStr search = true
        → strContains row.title (search.getD "") = true)
      ∧ (truthyStr username = true → row.username = username.getD "")
      ∧ (truthyStr category = true → row.category_name = category.getD "")
      ∧ (status = some "closed" → row.is_locked = true)
      ∧ (status = some "open" → row.is_locked = false) := by
  simp only [fetch_all_topics] at h
  split at h
  · cases h
  · next sorted heq =>
    injection h with h'
    subst h'
    simp only [List.mem_map] at hrow
    obtain ⟨j, hj, rfl⟩ := hrow
    have hj2 : j ∈ sorted :=
      List.mem_of_mem_drop (List.mem_of_mem_take hj)
    have hjf : j ∈ topicsFiltered db u search username category status :=
      mem_of_applySort sort sort_by _ sorted j heq hj2
    have hpred := (List.mem_filter.1 hjf).2
    simp only [topicsPred, Bool.and_eq_true, Bool.or_eq_true,
      Bool.not_eq_true', beq_iff_eq] at hpred
    obtain ⟨⟨⟨⟨⟨hacc, hsearch⟩, husr⟩, hcat⟩, hclosed⟩, hopen⟩ := hpred
    simp only [TopicJoinRow.toResponse]
    refine ⟨?_, ?_, ?_, ?_, ?_⟩
    · intro hs
      rcases hsearch with hfalse | hc
      · rw [hs] at hfalse
        cases hfalse
      · exact hc
    · intro hs
      rcases husr with hfalse | hc
      · rw [hs] at hfalse
        cases hfalse
      · exact hc
    · intro hs
      rcases hcat with hfalse | hc
      · rw [hs] at hfalse
        cases hfalse
      · exact hc
    · intro hs
      subst hs
      rcases hclosed with hfalse | hc
      · simp at hfalse
      · exact hc
    · intro hs
      subst hs
      rcases hopen with hfalse | hc
      · simp at hfalse
      · exact hc

/-- C9, witness for the amended theorem: a topic matching all four
supplied filters is returned and satisfies each predicate. -/
theorem c9_amended_witness :
    (truthyStr (some "Hell") = true
        → strContains "Hello" "Hell" = true)
      ∧ (truthyStr (some "alice") = true → "alice" = "alice")
      ∧ (truthyStr (some "Gen") = true → "Gen" = "Gen")
      ∧ (some "open" = some "closed" → false = true)
      ∧ (some "open" = some "open" → false = false) :=
  c9_amended_topics_filters_conjunctive
    ⟨[⟨1, "alice", false⟩], [⟨1, "Gen", false, false⟩],
     [⟨1, "Hello", 1, false, none, 1⟩], [], []⟩
    (some "Hell") (some "alice") (some "Gen") (some "open") none none
    1 10 ⟨1, "alice", false⟩
    ⟨[⟨1, "Hello", 1, "alice", false, none, 1, "Gen"⟩], 1, 1, 1⟩
    ⟨1, "Hello", 1, "alice", false, none, 1, "Gen"⟩
    rfl (by decide)

/-- C6: deleting a category with `delete(category_id, delete_topics=true)`
issues, in this order: delete the access-permission rows referencing it,
delete the replies under its topics, delete those topics, delete the
category row (the middle two steps when the category has topics);
afterwards no topic row references the category id and no reply row
belongs to a topic that was in the category. -/
theorem c6_category_cascade_delete
    (db : DB) (cid : Nat) (db' : DB) (msg : Option String)
    (log : List DbOp)
    (h : CategoriesServices.delete db cid true = .ok (db', msg, log)) :
    noTopicRefs db' cid = true
      ∧ noReplyRefs db' db cid = true
      ∧ (has_topics db cid = true →
          log = [DbOp.deletePermissions cid,
                 DbOp.deleteRepliesOfCategory cid,
                 DbOp.deleteTopicsOfCategory cid,
                 DbOp.deleteCategory cid]) := by
  simp only [CategoriesServices.delete] at h
  split at h
  · cases h
  · split at h
    · -- cascade branch: the category has topics
      split at h <;>
        [skip;
         split at h] <;>
      · injection h with h2
        injection h2 with hdb h3
        injection h3 with hmsg hlog
        subst hdb
        subst hlog
        refine ⟨?_, ?_, fun _ => rfl⟩
        · simp only [noTopicRefs, List.all_eq_true]
          intro t ht
          exact (List.mem_filter.1 ht).2
        · simp only [noReplyRefs, List.all_eq_true]
          intro r hr
          intro t ht
          have hany : db.topics.any (fun t' =>
              t'.category_id == cid && t'.topic_id == r.topic_id)
              = false := by
            simpa using (List.mem_filter.1 hr).2
          by_cases hcc : (t.category_id == cid) = true
          · by_cases hrt : (r.topic_id == t.topic_id) = true
            · exfalso
              have hw : db.topics.any (fun t' =>
                  t'.category_id == cid && t'.topic_id == r.topic_id)
                  = true := by
                refine List.any_eq_true.2 ⟨t, ht, ?_⟩
                simp only [Bool.and_eq_true]
                exact ⟨hcc, by simp [beq_iff_eq] at hrt ⊢; omega⟩
              rw [hany] at hw
              cases hw
            · have hrt' : r.topic_id ≠ t.topic_id := by
                simpa using hrt
              simp [hcc, hrt']
          · simp [hcc]
    · -- no cascade: the category has no topics
      next hcond =>
      have hfalse : has_topics db cid = false := by
        simpa [has_topics] using hcond
      rw [has_topics] at hfalse
      split at h <;>
      · injection h with h2
        injection h2 with hdb h3
        injection h3 with hmsg hlog
        subst hdb
        subst hlog
        refine ⟨?_, ?_, ?_⟩
        · simp only [noTopicRefs, List.all_eq_true]
          intro t ht
          by_cases hcc : (t.category_id == cid) = true
          · exfalso
            have hw : db.topics.any (fun t' => t'.category_id == cid)
                = true := List.any_eq_true.2 ⟨t, ht, hcc⟩
            rw [hfalse] at hw
            cases hw
          · have : t.category_id ≠ cid := by simpa using hcc
            simp [this]
        · simp only [noReplyRefs, List.all_eq_true]
          intro r hr t ht
          by_cases hcc : (t.category_id == cid) = true
          · exfalso
            have hw : db.topics.any (fun t' => t'.category_id == cid)
                = true := List.any_eq_true.2 ⟨t, ht, hcc⟩
            rw [hfalse] at hw
            cases hw
          · simp [hcc]
        · intro htop
          rw [has_topics, hfalse] at htop
          cases htop

/-- C6, witness: a category with one topic, one reply under it and one
permission row; after the cascade delete nothing references it and the
four statements were issued in order. -/
theorem c6_cascade_witness :
    noTopicRefs ⟨[], [], [], [], []⟩ 5 = true
      ∧ noReplyRefs ⟨[], [], [], [], []⟩
          ⟨[], [⟨5, "C", false, false⟩], [⟨1, "T", 1, false, none, 5⟩],
           [⟨10, "x", 1, 1, 3, false⟩], [⟨5, 2, 1⟩]⟩ 5 = true
      ∧ (has_topics
          ⟨[], [⟨5, "C", false, false⟩], [⟨1, "T", 1, false, none, 5⟩],
           [⟨10, "x", 1, 1, 3, false⟩], [⟨5, 2, 1⟩]⟩ 5 = true →
          [DbOp.deletePermissions 5, DbOp.deleteRepliesOfCategory 5,
           DbOp.deleteTopicsOfCategory 5, DbOp.deleteCategory 5]
            = [DbOp.deletePermissions 5, DbOp.deleteRepliesOfCategory 5,
               DbOp.deleteTopicsOfCategory 5, DbOp.deleteCategory 5]) :=
  c6_category_cascade_delete
    ⟨[], [⟨5, "C", false, false⟩], [⟨1, "T", 1, false, none, 5⟩],
     [⟨10, "x", 1, 1, 3, false⟩], [⟨5, 2, 1⟩]⟩ 5
    ⟨[], [], [], [], []⟩ (some "everything deleted")
    [DbOp.deletePermissions 5, DbOp.deleteRepliesOfCategory 5,
     DbOp.deleteTopicsOfCategory 5, DbOp.deleteCategory 5]
    rfl

/-- C7: `delete_topic` issues, in this order: null the topic's best-reply
reference, delete the topic's replies, delete the topic row; and
provided every topic's best reply is one of its own replies to begin
with, best-reply integrity holds after every step — no reply still
referenced as a best reply is ever deleted. -/
theorem c7_delete_topic_order_and_best_reply_safety
    (db : DB) (tid : Nat) (h : bestReplyOwn db = true) :
    (delete_topic db tid).2
        = [TopicOp.clearBest tid, TopicOp.delReplies tid,
           TopicOp.delTopic tid]
      ∧ bestReplyOwn (clearBestReply db tid) = true
      ∧ bestReplyOwn (deleteRepliesOfTopic (clearBestReply db tid) tid)
        = true
      ∧ bestReplyOwn (delete_topic db tid).1 = true := by
  have h1 := bestReplyOwn_clearBestReply db tid h
  have h2 := bestReplyOwn_deleteRepliesOfTopic _ tid h1
    (clearBestReply_clears db tid)
  have h3 := bestReplyOwn_deleteTopicRow
    (deleteRepliesOfTopic (clearBestReply db tid) tid) tid h2
  exact ⟨rfl, h1, h2, h3⟩

/-- C7, witness: two topics each with its own best reply; deleting topic 1
keeps topic 2's best-reply reference intact at every step. -/
theorem c7_delete_topic_witness :
    (delete_topic
        ⟨[], [],
         [⟨1, "T", 1, false, some 10, 1⟩, ⟨2, "S", 1, false, some 20, 1⟩],
         [⟨10, "a", 1, 1, 2, false⟩, ⟨20, "b", 1, 2, 3, false⟩], []⟩
        1).2
        = [TopicOp.clearBest 1, TopicOp.delReplies 1, TopicOp.delTopic 1]
      ∧ bestReplyOwn (clearBestReply
          ⟨[], [],
           [⟨1, "T", 1, false, some 10, 1⟩, ⟨2, "S", 1, false, some 20, 1⟩],
           [⟨10, "a", 1, 1, 2, false⟩, ⟨20, "b", 1, 2, 3, false⟩], []⟩
          1) = true
      ∧ bestReplyOwn (deleteRepliesOfTopic (clearBestReply
          ⟨[], [],
           [⟨1, "T", 1, false, some 10, 1⟩, ⟨2, "S", 1, false, some 20, 1⟩],
           [⟨10, "a", 1, 1, 2, false⟩, ⟨20, "b", 1, 2, 3, false⟩], []⟩
          1) 1) = true
      ∧ bestReplyOwn (delete_topic
          ⟨[], [],
           [⟨1, "T", 1, false, some 10, 1⟩, ⟨2, "S", 1, false, some 20, 1⟩],
           [⟨10, "a", 1, 1, 2, false⟩, ⟨20, "b", 1, 2, 3, false⟩], []⟩
          1).1 = true :=
  c7_delete_topic_order_and_best_reply_safety
    ⟨[], [],
     [⟨1, "T", 1, false, some 10, 1⟩, ⟨2, "S", 1, false, some 20, 1⟩],
     [⟨10, "a", 1, 1, 2, false⟩, ⟨20, "b", 1, 2, 3, false⟩], []⟩
    1 (by decide)

end Forum
